import Mathlib

/-!
Verification of the Aegis sentinel-guardrails decision-and-approval engine.

Shallow embedding of the Python sources:
  aegis_sdk/sentinel/db.py         (SQLite store layer; state-passing model)
  aegis_backend/mongo.py           (find_approval, which the SQLite layer lacks)
  aegis_sdk/sentinel/core.py       (validate_action, wait_for_approval, request_approval,
                                    register_agent)
  aegis_sdk/sentinel/decorators.py (the monitor wrapper)
  aegis_sdk/sentinel/exceptions.py (error classes)
  aegis_sdk/sentinel/context.py    (ambient agent binding)

The store is modelled as an explicit state record threaded through every
operation.  Raised Python exceptions become explicit result constructors.
The unbounded polling loop of wait_for_approval is modelled against the
finite list of store snapshots observed at successive poll iterations; the
constructor stillPending stands for the loop running past every observed
snapshot (in the source: blocking forever).  Message strings follow the
source with the surrounding quote characters elided.
-/

namespace Sentinel

/-- Row of the agents table (db.py schema, lines 35-40). -/
structure AgentRow where
  name : String
  status : String
  owner : String
deriving Repr, DecidableEq

/-- Row of the policies table (db.py schema, lines 42-48). -/
structure PolicyRow where
  agent_name : String
  action : String
  rule_type : String
deriving Repr, DecidableEq

/-- Row of the pending_approvals table (db.py schema, lines 61-69). -/
structure ApprovalRow where
  id : Nat
  agent_name : String
  action : String
  args_json : String
  status : String
deriving Repr, DecidableEq

/-- Row of the audit_log table (db.py schema, lines 50-59). -/
structure AuditRow where
  agent_name : String
  action : String
  status : String
  details : String
deriving Repr, DecidableEq

/-- The persistent store state: the four tables plus the autoincrement
counter for approval ids.  Rows are kept in insertion order, so ids of
approvals appear in increasing order. -/
structure DB where
  agents : List AgentRow
  policies : List PolicyRow
  approvals : List ApprovalRow
  audit_log : List AuditRow
  next_id : Nat
deriving Repr, DecidableEq

/-- The empty store (fresh database after init_db). -/
def DB.empty : DB := ⟨[], [], [], [], 1⟩

/-- db.py get_agent_status: status of the named agent, none when the agent
is not registered. -/
def get_agent_status (db : DB) (name : String) : Option String :=
  (db.agents.find? (fun a => a.name == name)).map (fun a => a.status)

/-- db.py get_policy: the rule for (agent_name, action), none when no row
exists. -/
def get_policy (db : DB) (agent_name action : String) : Option String :=
  (db.policies.find? (fun p => p.agent_name == agent_name && p.action == action)).map
    (fun p => p.rule_type)

/-- db.py log_event: append one row to the audit_log table. -/
def log_event (db : DB) (agent_name action status details : String) : DB :=
  { db with audit_log := db.audit_log ++ [⟨agent_name, action, status, details⟩] }

/-- db.py update_status: set the status of the named agent (kill switch). -/
def update_status (db : DB) (name status : String) : DB :=
  { db with agents :=
      db.agents.map (fun a => if a.name == name then { a with status := status } else a) }

/-- db.py upsert_agent: insert the agent (status defaulting to ACTIVE, the
schema default) or, on conflict, update only the owner column. -/
def upsert_agent (db : DB) (name owner : String) : DB :=
  if db.agents.any (fun a => a.name == name) then
    { db with agents :=
        db.agents.map (fun a => if a.name == name then { a with owner := owner } else a) }
  else
    { db with agents := db.agents ++ [⟨name, "ACTIVE", owner⟩] }

/-- db.py upsert_policy: insert the rule or, on conflict of
(agent_name, action), update the rule_type. -/
def upsert_policy (db : DB) (agent_name action rule_type : String) : DB :=
  if db.policies.any (fun p => p.agent_name == agent_name && p.action == action) then
    { db with policies :=
        db.policies.map (fun p =>
          if p.agent_name == agent_name && p.action == action then
            { p with rule_type := rule_type }
          else p) }
  else
    { db with policies := db.policies ++ [⟨agent_name, action, rule_type⟩] }

/-- db.py create_approval: insert a PENDING approval row with the next
autoincrement id; returns the new id. -/
def create_approval (db : DB) (agent_name action args_json : String) : Nat × DB :=
  (db.next_id,
   { db with
       approvals := db.approvals ++ [⟨db.next_id, agent_name, action, args_json, "PENDING"⟩],
       next_id := db.next_id + 1 })

/-- db.py get_approval_status: status of the approval with the given id. -/
def get_approval_status (db : DB) (approval_id : Nat) : Option String :=
  (db.approvals.find? (fun a => a.id == approval_id)).map (fun a => a.status)

/-- db.py decide_approval: set the status of the approval with the given
id. -/
def decide_approval (db : DB) (approval_id : Nat) (decision : String) : DB :=
  { db with approvals :=
      db.approvals.map (fun a =>
        if a.id == approval_id then { a with status := decision } else a) }

/-- mongo.py find_approval: the most recent (highest id) approval row for
(agent_name, action).  The SQLite layer does not define this function even
though core.py calls it; the mongo backend is the only definition in the
source, so its semantics (find_one sorted by id descending) is used. -/
def find_approval (db : DB) (agent_name action : String) : Option ApprovalRow :=
  (db.approvals.filter
      (fun a => a.agent_name == agent_name && a.action == action)).foldl
    (fun acc a =>
      match acc with
      | none => some a
      | some b => if b.id ≤ a.id then some a else some b)
    none

/-- The three exception classes of exceptions.py, each carrying the fields
set by its constructor. -/
inductive SentinelError where
  | blockedError (action message : String)
  | killSwitchError (agent_name message : String)
  | approvalError (action approver message : String)
deriving Repr, DecidableEq

/-- Python class name of an error value — the type a caller can catch. -/
def errType : SentinelError → String
  | .blockedError _ _ => "SentinelBlockedError"
  | .killSwitchError _ _ => "SentinelKillSwitchError"
  | .approvalError _ _ _ => "SentinelApprovalError"

/-- Message carried by an error value. -/
def errMessage : SentinelError → String
  | .blockedError _ m => m
  | .killSwitchError _ m => m
  | .approvalError _ _ m => m

/-- exceptions.py SentinelBlockedError constructor: default message built
from the action argument when no message is supplied. -/
def mkBlockedError (action message : String) : SentinelError :=
  .blockedError action
    (if message == "" then "Action " ++ action ++ " is blocked by Sentinel policy."
     else message)

/-- exceptions.py SentinelKillSwitchError constructor. -/
def mkKillSwitchError (agent_name message : String) : SentinelError :=
  .killSwitchError agent_name
    (if message == "" then
       "Agent " ++ agent_name ++ " is PAUSED. All operations are suspended. " ++
         "Use sentinel revive to reactivate."
     else message)

/-- exceptions.py SentinelApprovalError constructor. -/
def mkApprovalError (action approver message : String) : SentinelError :=
  .approvalError action approver
    (if message == "" then
       "Action " ++ action ++ " requires approval from " ++ approver ++ "."
     else message)

/-- Denial message raised by wait_for_approval and request_approval
(core.py lines 112-115, 134-138, 166-170). -/
def deniedMsg (action_name : String) (aid : Nat) : String :=
  "Action " ++ action_name ++ " was denied by human reviewer (Approval #" ++
    toString aid ++ ")."

/-- Audit detail written when a new approval is created (core.py
lines 122-125, 178-181). -/
def pendingMsg (aid : Nat) : String :=
  "Approval #" ++ toString aid ++ " - waiting for human decision."

/-- Result of core.py validate_action: a returned boolean, a raised
exception, or the tail call into wait_for_approval made on a REVIEW rule
(line 81), recorded with the arguments it passes. -/
inductive VResult where
  | ret (allowed : Bool)
  | raise (e : SentinelError)
  | tailWait (agent_name action_name args_json : String)
deriving Repr, DecidableEq

/-- core.py validate_action, lines 50-84: kill-switch check first, then
the policy rule. -/
def validate_action (db : DB) (agent_name action_name args_json : String) : VResult :=
  if get_agent_status db agent_name == some "PAUSED" then
    .raise (mkKillSwitchError agent_name "")
  else
    let rule := get_policy db agent_name action_name
    if rule == some "BLOCK" then
      .raise (mkBlockedError action_name "")
    else if rule == some "ALLOW" then
      .ret true
    else if rule == some "REVIEW" then
      .tailWait agent_name action_name args_json
    else
      .ret false

/-- Observable outcome of the blocking wait: returned True, raised the
denial error, or still polling an approval id past every observed store
snapshot (the source loop blocks forever until a decision appears). -/
inductive WaitResult where
  | approvedW
  | deniedW (e : SentinelError)
  | stillPending (approval_id : Nat)
deriving Repr, DecidableEq

/-- core.py wait_for_approval polling loop, lines 128-140: one iteration
per observed store snapshot. -/
def pollPhase (action_name : String) (approval_id : Nat) : List DB → WaitResult
  | [] => .stillPending approval_id
  | db :: rest =>
    let decision := get_approval_status db approval_id
    if decision == some "APPROVED" then .approvedW
    else if decision == some "DENIED" then
      .deniedW (mkBlockedError (deniedMsg action_name approval_id) "")
    else pollPhase action_name approval_id rest

/-- core.py wait_for_approval, lines 87-140: look up an existing approval
for the pair; replay a terminal one, resume a PENDING one, create a new
one only when none exists (emitting the PENDING audit entry); then poll.
The returned DB holds the writes made by this call; polls are the store
snapshots read at successive loop iterations. -/
def wait_for_approval (db : DB) (polls : List DB)
    (agent_name action_name args_json : String) : WaitResult × DB :=
  match find_approval db agent_name action_name with
  | some existing =>
    if existing.status == "APPROVED" then (.approvedW, db)
    else if existing.status == "DENIED" then
      (.deniedW (mkBlockedError (deniedMsg action_name existing.id) ""), db)
    else
      (pollPhase action_name existing.id polls, db)
  | none =>
    let created := create_approval db agent_name action_name args_json
    let db2 := log_event created.2 agent_name action_name "PENDING" (pendingMsg created.1)
    (pollPhase action_name created.1 polls, db2)

/-- Result of core.py request_approval: returned True, raised the denial
error, or raised the retry-later SentinelApprovalError. -/
inductive ReqResult where
  | approvedQ
  | deniedQ (e : SentinelError)
  | pendingQ (e : SentinelError)
deriving Repr, DecidableEq

/-- Retry message raised when an approval is already pending (core.py
lines 172-175). -/
def awaitingMsg (action_name : String) (aid : Nat) : String :=
  "Action " ++ action_name ++ " is awaiting human approval (Approval #" ++
    toString aid ++ "). Retry later."

/-- Message raised when a new approval has just been created (core.py
lines 182-185). -/
def requiresMsg (action_name : String) (aid : Nat) : String :=
  "Action " ++ action_name ++ " requires human approval (Approval #" ++
    toString aid ++ "). Retry after approval."

/-- core.py request_approval, lines 143-185: the non-blocking variant.
Same lookup and creation logic as the blocking wait, but never sleeps. -/
def request_approval (db : DB) (agent_name action_name args_json : String) :
    ReqResult × DB :=
  match find_approval db agent_name action_name with
  | some existing =>
    if existing.status == "APPROVED" then (.approvedQ, db)
    else if existing.status == "DENIED" then
      (.deniedQ (mkBlockedError (deniedMsg action_name existing.id) ""), db)
    else
      (.pendingQ (mkApprovalError (awaitingMsg action_name existing.id) "" ""), db)
  | none =>
    let created := create_approval db agent_name action_name args_json
    let db2 := log_event created.2 agent_name action_name "PENDING" (pendingMsg created.1)
    (.pendingQ (mkApprovalError (requiresMsg action_name created.1) "" ""), db2)

/-- core.py register_agent, lines 23-47: upsert the agent row, then one
policy row per listed action.  The init_db guard only creates tables and
is a no-op on the modelled state. -/
def register_agent (db : DB) (name owner : String)
    (allows blocks requires_review : List String) : DB :=
  let db1 := upsert_agent db name owner
  let db2 := allows.foldl (fun d a => upsert_policy d name a "ALLOW") db1
  let db3 := blocks.foldl (fun d a => upsert_policy d name a "BLOCK") db2
  requires_review.foldl (fun d a => upsert_policy d name a "REVIEW") db3

/-- Exceptions that can cross the monitor wrapper boundary: an SDK error,
the RuntimeError for an unresolvable agent name (decorators.py
lines 210-215), or an exception of type ε raised by the wrapped function
itself (or substituted by the hook). -/
inductive Exc (ε : Type) where
  | sentinel (e : SentinelError)
  | runtime (message : String)
  | external (e : ε)
deriving Repr, DecidableEq

/-- The global _monitor_hook of decorators.py: an optional callback on
(agent_name, action, decision); for BLOCKED and KILLED a returned
exception instance replaces the default one (a non-exception return keeps
the default, modelled by none). -/
def Hook (ε : Type) : Type := Option (String → String → String → Option (Exc ε))

/-- Observable result of one monitored call: the wrapped function result
returned, an exception raised, or the call still blocked inside the
approval polling loop past every observed snapshot. -/
inductive MRes (ε α : Type) where
  | ret (a : α)
  | raised (e : Exc ε)
  | hangs (approval_id : Nat)
deriving Repr, DecidableEq

/-- Full outcome of one monitored call: result, final store state, and
whether the wrapped function was invoked. -/
structure MOut (ε α : Type) where
  result : MRes ε α
  db : DB
  fnInvoked : Bool
deriving Repr, DecidableEq

/-- Python truthiness fallback agent_name or get_current_agent()
(decorators.py line 209): the empty string and None are both falsy. -/
def pyOr (a b : Option String) : Option String :=
  match a with
  | some s => if s == "" then b else some s
  | none => b

/-- Python falsiness of an optional string. -/
def falsy : Option String → Bool
  | none => true
  | some s => s == ""

/-- RuntimeError message for an unresolvable agent (decorators.py
lines 211-215). -/
def noAgentMsg (func_name : String) : String :=
  "@monitor on " ++ func_name ++ ": no agent name provided and no agent_context " ++
    "set. Use agent_context() or pass an agent name to @monitor."

/-- decorators.py lines 232-239: the except SentinelKillSwitchError clause
of the monitor wrapper — log KILLED, consult the hook, re-raise (or raise
the substituted exception). -/
def killedHandler {ε α : Type} (hook : Hook ε) (resolved_name func_name : String)
    (db : DB) (e : SentinelError) : MOut ε α :=
  let db1 := log_event db resolved_name func_name "KILLED"
      ("Agent " ++ resolved_name ++ " is PAUSED.")
  let exc :=
    match hook with
    | some h =>
      match h resolved_name func_name "KILLED" with
      | some alt => alt
      | none => Exc.sentinel e
    | none => Exc.sentinel e
  ⟨.raised exc, db1, false⟩

/-- decorators.py lines 241-248: the except SentinelBlockedError clause —
log BLOCKED, consult the hook, re-raise. -/
def blockedHandler {ε α : Type} (hook : Hook ε) (resolved_name func_name : String)
    (db : DB) (e : SentinelError) : MOut ε α :=
  let db1 := log_event db resolved_name func_name "BLOCKED"
      ("Action " ++ func_name ++ " is blocked by policy.")
  let exc :=
    match hook with
    | some h =>
      match h resolved_name func_name "BLOCKED" with
      | some alt => alt
      | none => Exc.sentinel e
    | none => Exc.sentinel e
  ⟨.raised exc, db1, false⟩

/-- decorators.py lines 250-258: the allowed path — invoke the wrapped
function; only when it returns normally, append the ALLOWED audit entry
and return its result (the ALLOWED hook call has its return value ignored
and is not tracked here).  An exception raised by the function itself
propagates unmodified. -/
def runFn {ε α : Type} (resolved_name func_name : String) (db : DB)
    (fnRun : Except ε α) : MOut ε α :=
  match fnRun with
  | .error e => ⟨.raised (.external e), db, true⟩
  | .ok v =>
    let db1 := log_event db resolved_name func_name "ALLOWED"
        ("Action " ++ func_name ++ " executed successfully.")
    ⟨.ret v, db1, true⟩

/-- Continuation of the monitor wrapper after control has entered
wait_for_approval: an approval runs the function, a denial is caught by
the except SentinelBlockedError clause, and an undecided request keeps
the caller blocked. -/
def afterWait {ε α : Type} (hook : Hook ε) (resolved_name func_name : String)
    (ww : WaitResult × DB) (fnRun : Except ε α) : MOut ε α :=
  match ww.1 with
  | .approvedW => runFn resolved_name func_name ww.2 fnRun
  | .deniedW e => blockedHandler hook resolved_name func_name ww.2 e
  | .stillPending aid => ⟨.hangs aid, ww.2, false⟩

/-- decorators.py monitor wrapper, lines 204-260: resolve the agent name,
run validate_action, funnel an unknown action (returned False) into
wait_for_approval, dispatch exceptions to the logging handlers, and run
the wrapped function on a final allow.  fnRun is the outcome of calling
the wrapped function; polls are the store snapshots seen by the approval
polling loop. -/
def monitor_call {ε α : Type} (hook : Hook ε) (agent_name ctx : Option String)
    (db : DB) (polls : List DB) (func_name args_json : String)
    (fnRun : Except ε α) : MOut ε α :=
  let resolved := pyOr agent_name ctx
  if falsy resolved then
    ⟨.raised (.runtime (noAgentMsg func_name)), db, false⟩
  else
    let name := resolved.getD ""
    match validate_action db name func_name args_json with
    | .raise (SentinelError.killSwitchError a m) =>
      killedHandler hook name func_name db (.killSwitchError a m)
    | .raise (SentinelError.blockedError a m) =>
      blockedHandler hook name func_name db (.blockedError a m)
    | .raise (SentinelError.approvalError a p m) =>
      ⟨.raised (.sentinel (.approvalError a p m)), db, false⟩
    | .ret true => runFn name func_name db fnRun
    | .ret false =>
      afterWait hook name func_name (wait_for_approval db polls name func_name args_json) fnRun
    | .tailWait a n j =>
      afterWait hook name func_name (wait_for_approval db polls a n j) fnRun

/-- context.py get_current_agent: read the ambient value. -/
def get_current_agent (st : Option String) : Option String := st

/-- context.py set_agent_context: set the ambient value, returning the
token (which remembers the prior value) and the new state. -/
def set_agent_context (st : Option String) (agent_name : String) :
    Option String × Option String :=
  (st, some agent_name)

/-- context.py reset_agent_context: restore the value recorded in the
token, whatever the current state is. -/
def reset_agent_context (_st : Option String) (token : Option String) : Option String :=
  token

/-- context.py agent_context, lines 35-48: run a body with the ambient
agent set to agent_name; the finally clause resets to the token taken at
entry whether the body returns or raises.  The body is any state
transformer that may return a value or raise. -/
def agent_context_run {ε α : Type} (st0 : Option String) (agent_name : String)
    (body : Option String → Except ε α × Option String) : Except ε α × Option String :=
  let stepIn := set_agent_context st0 agent_name
  let r := body stepIn.2
  (r.1, reset_agent_context r.2 stepIn.1)

/-- Result of the bounded blocking wait described by the spec: approved,
denied by a human, or timed out (the ApprovalTimedOut error of the spec
error taxonomy, carrying the action and approval id). -/
inductive BWaitResult where
  | approvedB
  | deniedB (e : SentinelError)
  | timedOutB (action_name : String) (approval_id : Nat)
deriving Repr, DecidableEq

/-- Modelled from the spec: the polling loop of the bounded blocking-wait
variant of the Approval Workflow (spec 4.4), absent from src where only
the unbounded loop exists (core.py polls forever; the TIMEOUT audit status
is declared in the db.py schema).  Each polling interval observes the
approval status once; on expiry of the deadline it force-resolves the
request to DENIED, appends a TIMEOUT audit entry and raises
ApprovalTimedOut. -/
def bounded_poll (observe : Nat → Option String) (agent_name action_name : String)
    (approval_id : Nat) : Nat → Nat → DB → BWaitResult × DB
  | _, 0, db =>
    let db1 := decide_approval db approval_id "DENIED"
    let db2 := log_event db1 agent_name action_name "TIMEOUT"
        ("Approval #" ++ toString approval_id ++ " timed out without a decision.")
    (.timedOutB action_name approval_id, db2)
  | elapsed, remaining + 1, db =>
    let d := observe elapsed
    if d == some "APPROVED" then (.approvedB, db)
    else if d == some "DENIED" then
      (.deniedB (mkBlockedError (deniedMsg action_name approval_id) ""), db)
    else bounded_poll observe agent_name action_name approval_id (elapsed + 1) remaining db

/-- Modelled from the spec: the bounded variant of await_decision
(spec 4.4), absent from src.  Same lookup, replay and creation logic as
the unbounded wait_for_approval, then a deadline-bounded polling loop;
observe gives the approval status read at each successive poll and
deadline counts polling intervals. -/
def await_decision_bounded (db : DB) (observe : Nat → Option String) (deadline : Nat)
    (agent_name action_name args_json : String) : BWaitResult × DB :=
  match find_approval db agent_name action_name with
  | some existing =>
    if existing.status == "APPROVED" then (.approvedB, db)
    else if existing.status == "DENIED" then
      (.deniedB (mkBlockedError (deniedMsg action_name existing.id) ""), db)
    else bounded_poll observe agent_name action_name existing.id 0 deadline db
  | none =>
    let created := create_approval db agent_name action_name args_json
    let db2 := log_event created.2 agent_name action_name "PENDING" (pendingMsg created.1)
    bounded_poll observe agent_name action_name created.1 0 deadline db2

/-- Does an approval row belong to the given (agent_name, action) pair. -/
def matchesPair (agent_name action : String) (r : ApprovalRow) : Bool :=
  r.agent_name == agent_name && r.action == action

/-- Number of unresolved (PENDING) approval rows for one pair. -/
def pendingFor (db : DB) (agent_name action : String) : Nat :=
  (db.approvals.filter
      (fun r => matchesPair agent_name action r && r.status == "PENDING")).length

/-- The deduplication invariant: at most one unresolved ApprovalRequest
per (agent_name, action) pair. -/
def AtMostOnePending (db : DB) : Prop :=
  ∀ a n, pendingFor db a n ≤ 1

/-- One approval-workflow operation on the store: a blocking-wait call, a
non-blocking request call, a human decision (the backend only accepts
APPROVED or DENIED, backend.py lines 319-330), or an audit append. -/
inductive WorkflowOp where
  | waitCall (agent_name action args_json : String)
  | requestCall (agent_name action args_json : String)
  | decideOp (approval_id : Nat) (approved : Bool)
  | logOp (agent_name action status details : String)
deriving Repr, DecidableEq

/-- Store effect of one workflow operation (the DB component of the
corresponding source function). -/
def applyOp (db : DB) : WorkflowOp → DB
  | .waitCall a n j => (wait_for_approval db [] a n j).2
  | .requestCall a n j => (request_approval db a n j).2
  | .decideOp i b => decide_approval db i (if b then "APPROVED" else "DENIED")
  | .logOp a n s d => log_event db a n s d

/-- Example store: one paused agent that even has an ALLOW rule for the
action lookup (end-to-end scenario of spec section 8). -/
def dbPaused : DB :=
  ⟨[⟨"Support", "PAUSED", "ops"⟩], [⟨"Support", "lookup", "ALLOW"⟩], [], [], 1⟩

/-- Example store: one active agent with an ALLOW, a BLOCK and a REVIEW
rule. -/
def dbActive : DB :=
  ⟨[⟨"Support", "ACTIVE", "ops"⟩],
   [⟨"Support", "lookup", "ALLOW"⟩, ⟨"Support", "delete", "BLOCK"⟩,
    ⟨"Support", "export", "REVIEW"⟩],
   [], [], 1⟩

/-- Example store: dbActive with an already approved request for the pair
(Support, export). -/
def dbApproved : DB :=
  { dbActive with approvals := [⟨1, "Support", "export", "{}", "APPROVED"⟩], next_id := 2 }

/-- Example store: dbActive with an already denied request for the pair
(Support, export). -/
def dbDenied : DB :=
  { dbActive with approvals := [⟨1, "Support", "export", "{}", "DENIED"⟩], next_id := 2 }

/-- Example store: dbActive with a still pending request for the pair
(Support, export). -/
def dbPending : DB :=
  { dbActive with approvals := [⟨1, "Support", "export", "{}", "PENDING"⟩], next_id := 2 }

/-! Helper lemmas shared by the claim theorems. -/

theorem foldl_latest_isSome (l : List ApprovalRow) (x : ApprovalRow) :
    (l.foldl
      (fun acc a =>
        match acc with
        | none => some a
        | some b => if b.id ≤ a.id then some a else some b)
      (some x)).isSome = true := by
  induction l generalizing x with
  | nil => rfl
  | cons h t ih =>
    simp only [List.foldl_cons]
    by_cases hc : x.id ≤ h.id <;> simp only [hc, if_true, if_false, ite_true, ite_false] <;>
      first
        | exact ih h
        | exact ih x

theorem find_approval_eq_none_iff (db : DB) (a n : String) :
    find_approval db a n = none ↔
      db.approvals.filter (fun r => r.agent_name == a && r.action == n) = [] := by
  unfold find_approval
  cases hl : db.approvals.filter (fun r => r.agent_name == a && r.action == n) with
  | nil => simp
  | cons h t =>
    simp only [List.foldl_cons]
    constructor
    · intro hcontra
      have := foldl_latest_isSome t h
      rw [hcontra] at this
      simp at this
    · intro hcontra
      exact absurd hcontra (List.cons_ne_nil h t)

theorem filter_and_eq_nil (l : List ApprovalRow) (p q : ApprovalRow → Bool)
    (h : l.filter p = []) : l.filter (fun r => p r && q r) = [] := by
  induction l with
  | nil => rfl
  | cons x t ih =>
    rw [List.filter_cons] at h ⊢
    by_cases hp : p x
    · rw [if_pos hp] at h
      exact absurd h (List.cons_ne_nil x _)
    · have hpx : p x = false := by simpa using hp
      rw [if_neg hp] at h
      simp only [hpx, Bool.false_and, ite_false, Bool.false_eq_true]
      exact ih h

theorem pendingFor_eq_zero_of_find_none (db : DB) (a n : String)
    (h : find_approval db a n = none) : pendingFor db a n = 0 := by
  have hnil := (find_approval_eq_none_iff db a n).mp h
  unfold pendingFor
  have : db.approvals.filter
      (fun r => matchesPair a n r && r.status == "PENDING") = [] := by
    have := filter_and_eq_nil db.approvals
      (fun r => r.agent_name == a && r.action == n)
      (fun r => r.status == "PENDING") hnil
    simpa [matchesPair] using this
  rw [this]
  rfl

/-! Claim theorems. -/

/-- Claim C9: for every prior ambient agent value v and every body run
inside the agent_context scope — whether the body returns a value or
raises — the ambient current-agent value seen by the body is the scoped
name, and after the scope exits the ambient value is restored to exactly
v. -/
theorem C9_agent_context_scoped_restore {ε α : Type} (v : Option String)
    (name : String) (body : Option String → Except ε α × Option String) :
    get_current_agent (set_agent_context v name).2 = some name ∧
      agent_context_run v name body = ((body (some name)).1, v) := by
  exact ⟨rfl, rfl⟩

/-- Claim C1: for every agent whose stored status is PAUSED, a monitored
call raises the kill-switch error (after logging KILLED), never invokes
the wrapped function, and creates no ApprovalRequest — regardless of the
policy rule for the action, since the store db is arbitrary and the rule
is never consulted. -/
theorem C1_paused_killswitch {ε α : Type} (db : DB) (polls : List DB)
    (ctx : Option String) (name func_name args_json : String)
    (fnRun : Except ε α)
    (hname : name ≠ "") (hpause : get_agent_status db name = some "PAUSED") :
    monitor_call none (some name) ctx db polls func_name args_json fnRun =
      ⟨.raised (.sentinel (mkKillSwitchError name "")),
       log_event db name func_name "KILLED" ("Agent " ++ name ++ " is PAUSED."),
       false⟩ ∧
    (monitor_call none (some name) ctx db polls func_name args_json fnRun).fnInvoked
      = false ∧
    (monitor_call none (some name) ctx db polls func_name args_json fnRun).db.approvals
      = db.approvals := by
  have hmain : monitor_call none (some name) ctx db polls func_name args_json fnRun =
      ⟨.raised (.sentinel (mkKillSwitchError name "")),
       log_event db name func_name "KILLED" ("Agent " ++ name ++ " is PAUSED."),
       false⟩ := by
    simp [monitor_call, pyOr, falsy, hname, validate_action, hpause,
      mkKillSwitchError, killedHandler]
  exact ⟨hmain, by rw [hmain], by rw [hmain]; rfl⟩

/-- Witness for C1: concrete paused agent whose action even has an ALLOW
rule. -/
theorem C1_paused_killswitch_witness :
    ("Support" : String) ≠ "" ∧
    get_agent_status dbPaused "Support" = some "PAUSED" ∧
    get_policy dbPaused "Support" "lookup" = some "ALLOW" ∧
    monitor_call (ε := String) (α := Nat) none (some "Support") none dbPaused []
        "lookup" "{}" (Except.ok 7) =
      ⟨.raised (.sentinel (mkKillSwitchError "Support" "")),
       log_event dbPaused "Support" "lookup" "KILLED" "Agent Support is PAUSED.",
       false⟩ := by
  refine ⟨by decide, by decide, by decide, ?_⟩
  exact (C1_paused_killswitch dbPaused [] none "Support" "lookup" "{}"
    (Except.ok 7) (by decide) (by decide)).1

/-- Claim C2: on a non-paused agent the decision mapping is exactly: rule
BLOCK raises the policy-blocked error and never invokes the wrapped
function; rule ALLOW runs the wrapped function; rule REVIEW and no rule at
all both reduce to the very same expression — control entering
wait_for_approval with identical arguments — so the two cases are not
distinguished. -/
theorem C2_decision_mapping {ε α : Type} (db : DB) (polls : List DB)
    (ctx : Option String) (name func_name args_json : String) (fnRun : Except ε α)
    (hname : name ≠ "") (hpause : get_agent_status db name ≠ some "PAUSED") :
    (get_policy db name func_name = some "BLOCK" →
      monitor_call none (some name) ctx db polls func_name args_json fnRun =
        ⟨.raised (.sentinel (mkBlockedError func_name "")),
         log_event db name func_name "BLOCKED"
           ("Action " ++ func_name ++ " is blocked by policy."),
         false⟩) ∧
    (get_policy db name func_name = some "ALLOW" →
      monitor_call none (some name) ctx db polls func_name args_json fnRun =
          runFn name func_name db fnRun ∧
        (monitor_call none (some name) ctx db polls func_name args_json fnRun).fnInvoked
          = true) ∧
    ((get_policy db name func_name = some "REVIEW" ∨
        get_policy db name func_name = none) →
      monitor_call none (some name) ctx db polls func_name args_json fnRun =
        afterWait none name func_name
          (wait_for_approval db polls name func_name args_json) fnRun) := by
  refine ⟨?_, ?_, ?_⟩
  · intro hrule
    simp [monitor_call, pyOr, falsy, hname, validate_action, hpause, hrule,
      mkBlockedError, blockedHandler]
  · intro hrule
    have hmain : monitor_call none (some name) ctx db polls func_name args_json fnRun =
        runFn name func_name db fnRun := by
      simp [monitor_call, pyOr, falsy, hname, validate_action, hpause, hrule]
    refine ⟨hmain, ?_⟩
    rw [hmain]
    cases fnRun <;> rfl
  · rintro (hrule | hrule) <;>
      simp [monitor_call, pyOr, falsy, hname, validate_action, hpause, hrule]

/-- Witness for C2: on the concrete active agent the BLOCK rule for
delete raises the policy-blocked error without invoking the wrapped
function. -/
theorem C2_decision_mapping_witness :
    monitor_call (ε := String) (α := Nat) none (some "Support") none dbActive []
        "delete" "{}" (Except.ok 3) =
      ⟨.raised (.sentinel (mkBlockedError "delete" "")),
       log_event dbActive "Support" "delete" "BLOCKED"
         "Action delete is blocked by policy.",
       false⟩ :=
  (C2_decision_mapping dbActive [] none "Support" "delete" "{}" (Except.ok 3)
    (by decide) (by decide)).1 (by decide)

/-- Claim C10: an agent name with no agent row is treated exactly like an
active agent: validate_action never raises the kill-switch error for it,
behaves identically to any store that differs only by listing the agent
as ACTIVE, is allowed by an ALLOW rule, and falls through to the approval
workflow (returns False) when no rule exists. -/
theorem C10_unregistered_fail_open (db db2 : DB) (name action args_json : String)
    (habs : get_agent_status db name = none) :
    (∀ e : SentinelError, validate_action db name action args_json = .raise e →
      errType e ≠ "SentinelKillSwitchError") ∧
    (get_agent_status db2 name = some "ACTIVE" → db2.policies = db.policies →
      validate_action db name action args_json =
        validate_action db2 name action args_json) ∧
    (get_policy db name action = some "ALLOW" →
      validate_action db name action args_json = .ret true) ∧
    (get_policy db name action = none →
      validate_action db name action args_json = .ret false) := by
  refine ⟨?_, ?_, ?_, ?_⟩
  · intro e he
    unfold validate_action at he
    rw [habs] at he
    simp only [show ((none : Option String) == some "PAUSED") = false from rfl,
      Bool.false_eq_true, if_false] at he
    split at he
    · cases he
      simp [mkBlockedError, errType]
    · split at he
      · exact absurd he (by simp)
      · split at he
        · exact absurd he (by simp)
        · exact absurd he (by simp)
  · intro hact hpol
    have hgp : get_policy db2 name action = get_policy db name action := by
      unfold get_policy
      rw [hpol]
    unfold validate_action
    rw [habs, hact, hgp]
    rfl
  · intro hrule
    simp [validate_action, habs, hrule]
  · intro hrule
    simp [validate_action, habs, hrule]

/-- Witness for C10: an unregistered agent with no rule falls through to
the approval workflow instead of hitting the kill switch. -/
theorem C10_unregistered_fail_open_witness :
    validate_action dbActive "Ghost" "ping" "{}" = .ret false :=
  (C10_unregistered_fail_open dbActive dbActive "Ghost" "ping" "{}"
    (by decide)).2.2.2 (by decide)

/-- Claim C5: calling the blocking wait again for a pair whose request is
already terminal replays the terminal result — approved returns True,
denied raises the denial error — leaves the store untouched (so no second
ApprovalRequest is created), and therefore yet another call returns the
same result again. -/
theorem C5_terminal_replay (db : DB) (polls polls2 : List DB)
    (a n j j2 : String) (r : ApprovalRow)
    (hfind : find_approval db a n = some r) :
    (r.status = "APPROVED" →
      wait_for_approval db polls a n j = (.approvedW, db) ∧
      wait_for_approval (wait_for_approval db polls a n j).2 polls2 a n j2 =
        (.approvedW, db)) ∧
    (r.status = "DENIED" →
      wait_for_approval db polls a n j =
        (.deniedW (mkBlockedError (deniedMsg n r.id) ""), db) ∧
      wait_for_approval (wait_for_approval db polls a n j).2 polls2 a n j2 =
        (.deniedW (mkBlockedError (deniedMsg n r.id) ""), db)) := by
  constructor
  · intro hst
    have h1 : wait_for_approval db polls a n j = (.approvedW, db) := by
      unfold wait_for_approval
      rw [hfind]
      simp [hst]
    refine ⟨h1, ?_⟩
    rw [h1]
    unfold wait_for_approval
    rw [hfind]
    simp [hst]
  · intro hst
    have h1 : wait_for_approval db polls a n j =
        (.deniedW (mkBlockedError (deniedMsg n r.id) ""), db) := by
      unfold wait_for_approval
      rw [hfind]
      simp [hst]
    refine ⟨h1, ?_⟩
    rw [h1]
    unfold wait_for_approval
    rw [hfind]
    simp [hst]

/-- Witness for C5: replaying the blocking wait on the already approved
request of dbApproved returns approved without creating a second
request. -/
theorem C5_terminal_replay_witness :
    wait_for_approval dbApproved [] "Support" "export" "{}" = (.approvedW, dbApproved) :=
  ((C5_terminal_replay dbApproved [] [] "Support" "export" "{}" "{}"
    ⟨1, "Support", "export", "{}", "APPROVED"⟩ (by decide)).1 (by decide)).1

/-- Counterexample to claim C6 as stated: on the concrete allowed call
whose wrapped function raises, the exception does propagate unmodified,
but the final store contains no ALLOWED audit entry at all — the source
appends the ALLOWED entry only after the wrapped function has returned
(decorators.py lines 251-253). -/
theorem C6_counterexample :
    (monitor_call (ε := String) (α := Nat) none (some "Support") none dbActive []
        "lookup" "{}" (Except.error "boom")).result = .raised (.external "boom") ∧
    (monitor_call (ε := String) (α := Nat) none (some "Support") none dbActive []
        "lookup" "{}" (Except.error "boom")).db.audit_log.filter
        (fun rrow => rrow.status == "ALLOWED") = [] := by
  decide

/-- Claim C6 amended: when a monitored call is allowed (directly or via an
already approved request) and the wrapped function raises, the exception
propagates to the caller unmodified and no audit entry is appended (the
store is returned unchanged); the ALLOWED audit entry is appended only
when the wrapped function returns normally. -/
theorem C6_fn_exception_propagation {ε α : Type} (db : DB) (ctx : Option String)
    (polls : List DB) (name func_name args_json : String) (e : ε) (v : α)
    (hname : name ≠ "") (hpause : get_agent_status db name ≠ some "PAUSED")
    (hrule : get_policy db name func_name = some "ALLOW") :
    monitor_call none (some name) ctx db polls func_name args_json
        (Except.error e : Except ε α) =
      ⟨.raised (.external e), db, true⟩ ∧
    monitor_call none (some name) ctx db polls func_name args_json
        (Except.ok v : Except ε α) =
      ⟨.ret v,
       log_event db name func_name "ALLOWED"
         ("Action " ++ func_name ++ " executed successfully."),
       true⟩ ∧
    (∀ (db2 : DB) (r : ApprovalRow), get_agent_status db2 name ≠ some "PAUSED" →
      get_policy db2 name func_name = some "REVIEW" →
      find_approval db2 name func_name = some r → r.status = "APPROVED" →
      monitor_call none (some name) ctx db2 polls func_name args_json
          (Except.error e : Except ε α) =
        ⟨.raised (.external e), db2, true⟩) := by
  refine ⟨?_, ?_, ?_⟩
  · simp [monitor_call, pyOr, falsy, hname, validate_action, hpause, hrule, runFn]
  · simp [monitor_call, pyOr, falsy, hname, validate_action, hpause, hrule, runFn]
  · intro db2 r hpause2 hrule2 hfind hst
    have hwait : wait_for_approval db2 polls name func_name args_json =
        (.approvedW, db2) := by
      unfold wait_for_approval
      rw [hfind]
      simp [hst]
    simp [monitor_call, pyOr, falsy, hname, validate_action, hpause2, hrule2,
      hwait, afterWait, runFn]

/-- Witness for the amended C6: concrete allowed call with a raising
wrapped function propagates the exception and leaves the store
unchanged. -/
theorem C6_fn_exception_propagation_witness :
    monitor_call (ε := String) (α := Nat) none (some "Support") none dbActive []
        "lookup" "{}" (Except.error "boom") =
      ⟨.raised (.external "boom"), dbActive, true⟩ :=
  (C6_fn_exception_propagation dbActive none [] "Support" "lookup" "{}" "boom" 0
    (by decide) (by decide) (by decide)).1

/-- Counterexample to claim C7 as stated: on concrete stores, a policy
block and an explicit human denial raise errors of the very same Python
class SentinelBlockedError (core.py raises SentinelBlockedError both at
line 75 and at lines 112-115 and 134-138), so the caller cannot
distinguish them by type. -/
theorem C7_counterexample :
    validate_action dbActive "Support" "delete" "{}" =
      .raise (mkBlockedError "delete" "") ∧
    (wait_for_approval dbDenied [] "Support" "export" "{}").1 =
      .deniedW (mkBlockedError (deniedMsg "export" 1) "") ∧
    errType (mkBlockedError "delete" "") =
      errType (mkBlockedError (deniedMsg "export" 1) "") := by
  decide

/-- Claim C7 amended: the caller sees typed failures in which the
pending/retry-later signal (SentinelApprovalError) and the kill switch
(SentinelKillSwitchError) are distinct types, but a human denial raises
the same type as a policy block (SentinelBlockedError for both, the two
distinguished only by message). -/
theorem C7_error_taxonomy (db : DB) (polls : List DB) (a n j : String)
    (r : ApprovalRow) :
    (get_agent_status db a ≠ some "PAUSED" → get_policy db a n = some "BLOCK" →
      validate_action db a n j = .raise (mkBlockedError n "") ∧
      errType (mkBlockedError n "") = "SentinelBlockedError") ∧
    (find_approval db a n = some r → r.status = "DENIED" →
      (wait_for_approval db polls a n j).1 =
        .deniedW (mkBlockedError (deniedMsg n r.id) "") ∧
      errType (mkBlockedError (deniedMsg n r.id) "") = "SentinelBlockedError") ∧
    (find_approval db a n = some r → r.status = "PENDING" →
      (request_approval db a n j).1 =
        .pendingQ (mkApprovalError (awaitingMsg n r.id) "" "") ∧
      errType (mkApprovalError (awaitingMsg n r.id) "" "") = "SentinelApprovalError") ∧
    (get_agent_status db a = some "PAUSED" →
      validate_action db a n j = .raise (mkKillSwitchError a "") ∧
      errType (mkKillSwitchError a "") = "SentinelKillSwitchError") ∧
    errType (mkApprovalError (awaitingMsg n r.id) "" "") ≠
      errType (mkBlockedError n "") ∧
    errType (mkApprovalError (awaitingMsg n r.id) "" "") ≠
      errType (mkKillSwitchError a "") := by
  refine ⟨?_, ?_, ?_, ?_, ?_, ?_⟩
  · intro hpause hrule
    exact ⟨by simp [validate_action, hpause, hrule], by simp [mkBlockedError, errType]⟩
  · intro hfind hst
    constructor
    · unfold wait_for_approval
      rw [hfind]
      simp [hst]
    · simp [mkBlockedError, errType]
  · intro hfind hst
    constructor
    · unfold request_approval
      rw [hfind]
      simp [hst]
    · simp [mkApprovalError, errType]
  · intro hpause
    exact ⟨by simp [validate_action, hpause], by simp [mkKillSwitchError, errType]⟩
  · simp [mkApprovalError, mkBlockedError, errType]
  · simp [mkApprovalError, mkKillSwitchError, errType]

/-- Witness for the amended C7: the non-blocking request on the concrete
pending approval raises the retry-later SentinelApprovalError. -/
theorem C7_error_taxonomy_witness :
    (request_approval dbPending "Support" "export" "{}").1 =
      .pendingQ (mkApprovalError (awaitingMsg "export" 1) "" "") ∧
    errType (mkApprovalError (awaitingMsg "export" 1) "" "") =
      "SentinelApprovalError" :=
  (C7_error_taxonomy dbPending [] "Support" "export" "{}"
    ⟨1, "Support", "export", "{}", "PENDING"⟩).2.2.1 (by decide) (by decide)

theorem upsert_policy_agents (db : DB) (a n r : String) :
    (upsert_policy db a n r).agents = db.agents := by
  unfold upsert_policy
  split <;> rfl

theorem upsert_policy_approvals (db : DB) (a n r : String) :
    (upsert_policy db a n r).approvals = db.approvals := by
  unfold upsert_policy
  split <;> rfl

theorem upsert_policy_audit (db : DB) (a n r : String) :
    (upsert_policy db a n r).audit_log = db.audit_log := by
  unfold upsert_policy
  split <;> rfl

theorem foldl_upsert_policy_agents (l : List String) (db : DB) (name rule : String) :
    (l.foldl (fun d a => upsert_policy d name a rule) db).agents = db.agents := by
  induction l generalizing db with
  | nil => rfl
  | cons x t ih => rw [List.foldl_cons, ih, upsert_policy_agents]

theorem foldl_upsert_policy_approvals (l : List String) (db : DB) (name rule : String) :
    (l.foldl (fun d a => upsert_policy d name a rule) db).approvals = db.approvals := by
  induction l generalizing db with
  | nil => rfl
  | cons x t ih => rw [List.foldl_cons, ih, upsert_policy_approvals]

theorem foldl_upsert_policy_audit (l : List String) (db : DB) (name rule : String) :
    (l.foldl (fun d a => upsert_policy d name a rule) db).audit_log = db.audit_log := by
  induction l generalizing db with
  | nil => rfl
  | cons x t ih => rw [List.foldl_cons, ih, upsert_policy_audit]

theorem status_after_owner_map (l : List AgentRow) (nm ow : String) :
    ((l.map (fun a => if a.name == nm then { a with owner := ow } else a)).find?
        (fun a => a.name == nm)).map (fun a => a.status) =
      (l.find? (fun a => a.name == nm)).map (fun a => a.status) := by
  induction l with
  | nil => rfl
  | cons h t ih =>
    by_cases hc : (h.name == nm) = true
    · simp [List.find?, hc]
    · simp only [List.map_cons, if_neg hc, List.find?]
      rw [show ((h.name == nm) = false) from by simpa using hc]
      exact ih

theorem agents_any_of_status (db : DB) (name st : String)
    (h : get_agent_status db name = some st) :
    db.agents.any (fun a => a.name == name) = true := by
  unfold get_agent_status at h
  cases hf : db.agents.find? (fun a => a.name == name) with
  | none => rw [hf] at h; simp at h
  | some a =>
    have hp := List.find?_some hf
    exact List.any_eq_true.mpr ⟨a, List.mem_of_find?_eq_some hf, hp⟩

theorem agents_any_false_of_none (db : DB) (name : String)
    (h : get_agent_status db name = none) :
    db.agents.any (fun a => a.name == name) = false := by
  unfold get_agent_status at h
  cases hf : db.agents.find? (fun a => a.name == name) with
  | none =>
    rw [List.any_eq_false]
    intro a ha
    exact by simpa using List.find?_eq_none.mp hf a ha
  | some a => rw [hf] at h; simp at h

/-- Claim C8: re-registering an already-registered agent never changes its
stored status (it only rewrites the owner and the policy rows), the
ACTIVE default applies only on first creation, and registration touches
neither the approvals nor the audit log. -/
theorem C8_reregistration_keeps_status (db : DB) (name owner : String)
    (allows blocks reviews : List String) :
    (∀ st, get_agent_status db name = some st →
      get_agent_status (register_agent db name owner allows blocks reviews) name
        = some st) ∧
    (get_agent_status db name = none →
      get_agent_status (register_agent db name owner allows blocks reviews) name
        = some "ACTIVE") ∧
    (register_agent db name owner allows blocks reviews).approvals = db.approvals ∧
    (register_agent db name owner allows blocks reviews).audit_log = db.audit_log := by
  have hagents : (register_agent db name owner allows blocks reviews).agents
      = (upsert_agent db name owner).agents := by
    unfold register_agent
    rw [foldl_upsert_policy_agents, foldl_upsert_policy_agents,
      foldl_upsert_policy_agents]
  have hstat : get_agent_status (register_agent db name owner allows blocks reviews) name
      = get_agent_status (upsert_agent db name owner) name := by
    unfold get_agent_status
    rw [hagents]
  refine ⟨?_, ?_, ?_, ?_⟩
  · intro st h
    rw [hstat]
    unfold upsert_agent
    rw [if_pos (agents_any_of_status db name st h)]
    show ((db.agents.map fun a => if a.name == name then { a with owner := owner } else a).find?
        (fun a => a.name == name)).map (fun a => a.status) = some st
    rw [status_after_owner_map]
    exact h
  · intro h
    rw [hstat]
    unfold upsert_agent
    rw [if_neg (by simp [agents_any_false_of_none db name h])]
    show ((db.agents ++ ([⟨name, "ACTIVE", owner⟩] : List AgentRow)).find?
        (fun a => a.name == name)).map (fun a => a.status) = some "ACTIVE"
    rw [List.find?_append]
    unfold get_agent_status at h
    cases hf : db.agents.find? (fun a => a.name == name) with
    | none => simp [hf]
    | some a => rw [hf] at h; simp at h
  · unfold register_agent
    rw [foldl_upsert_policy_approvals, foldl_upsert_policy_approvals,
      foldl_upsert_policy_approvals]
    unfold upsert_agent
    split <;> rfl
  · unfold register_agent
    rw [foldl_upsert_policy_audit, foldl_upsert_policy_audit,
      foldl_upsert_policy_audit]
    unfold upsert_agent
    split <;> rfl

/-- Witness for C8: re-registering the paused concrete agent with a new
owner and a policy list leaves its PAUSED status intact. -/
theorem C8_reregistration_keeps_status_witness :
    get_agent_status
        (register_agent dbPaused "Support" "newOwner" ["lookup", "ping"] ["delete"] [])
        "Support" = some "PAUSED" :=
  (C8_reregistration_keeps_status dbPaused "Support" "newOwner"
    ["lookup", "ping"] ["delete"] []).1 "PAUSED" (by decide)

theorem pendingFor_log_event (db : DB) (a n s d x y : String) :
    pendingFor (log_event db a n s d) x y = pendingFor db x y := rfl

theorem wait_db_of_find_some (db : DB) (polls : List DB) (a n j : String)
    (r : ApprovalRow) (hfind : find_approval db a n = some r) :
    (wait_for_approval db polls a n j).2 = db := by
  unfold wait_for_approval
  rw [hfind]
  by_cases h1 : (r.status == "APPROVED") = true
  · simp [h1]
  · by_cases h2 : (r.status == "DENIED") = true <;> simp [h1, h2]

theorem request_db_of_find_some (db : DB) (a n j : String)
    (r : ApprovalRow) (hfind : find_approval db a n = some r) :
    (request_approval db a n j).2 = db := by
  unfold request_approval
  rw [hfind]
  by_cases h1 : (r.status == "APPROVED") = true
  · simp [h1]
  · by_cases h2 : (r.status == "DENIED") = true <;> simp [h1, h2]

theorem request_db_eq_wait_db (db : DB) (a n j : String) :
    (request_approval db a n j).2 = (wait_for_approval db [] a n j).2 := by
  cases hfind : find_approval db a n with
  | none =>
    unfold request_approval wait_for_approval
    rw [hfind]
  | some r =>
    rw [request_db_of_find_some db a n j r hfind,
      wait_db_of_find_some db [] a n j r hfind]

theorem pendingFor_wait_le_one (db : DB) (polls : List DB) (a n j x y : String)
    (hinv : AtMostOnePending db) :
    pendingFor (wait_for_approval db polls a n j).2 x y ≤ 1 := by
  cases hfind : find_approval db a n with
  | some r =>
    rw [wait_db_of_find_some db polls a n j r hfind]
    exact hinv x y
  | none =>
    have happ : (wait_for_approval db polls a n j).2.approvals
        = db.approvals ++ [⟨db.next_id, a, n, j, "PENDING"⟩] := by
      unfold wait_for_approval
      rw [hfind]
      rfl
    have hpf : pendingFor (wait_for_approval db polls a n j).2 x y
        = ((db.approvals ++ ([⟨db.next_id, a, n, j, "PENDING"⟩] : List ApprovalRow)).filter
            (fun r => matchesPair x y r && r.status == "PENDING")).length := by
      unfold pendingFor
      rw [happ]
    rw [hpf, List.filter_append, List.length_append]
    by_cases hm : (matchesPair x y (⟨db.next_id, a, n, j, "PENDING"⟩ : ApprovalRow)
        && (("PENDING" : String) == "PENDING")) = true
    · have hax : a = x ∧ n = y := by
        have := hm
        simp only [matchesPair, Bool.and_true, Bool.and_eq_true, beq_iff_eq] at this
        exact this.1
      obtain ⟨hax1, hax2⟩ := hax
      subst hax1
      subst hax2
      have hzero : pendingFor db a n = 0 := pendingFor_eq_zero_of_find_none db a n hfind
      have hfirst : (db.approvals.filter
          (fun r => matchesPair a n r && r.status == "PENDING")).length = 0 := hzero
      rw [hfirst]
      simp only [Nat.zero_add]
      exact Nat.le_trans (List.length_filter_le _ _) (Nat.le_refl 1)
    · have hnil : (([⟨db.next_id, a, n, j, "PENDING"⟩] : List ApprovalRow).filter
          (fun r => matchesPair x y r && r.status == "PENDING")).length = 0 := by
        simp only [List.filter, hm]
        rfl
      rw [hnil]
      have := hinv x y
      unfold pendingFor at this
      omega

theorem length_filter_decide_le (l : List ApprovalRow) (i : Nat) (d x y : String)
    (hd : (d == "PENDING") = false) :
    ((l.map (fun r => if r.id == i then { r with status := d } else r)).filter
        (fun r => matchesPair x y r && r.status == "PENDING")).length ≤
      (l.filter (fun r => matchesPair x y r && r.status == "PENDING")).length := by
  induction l with
  | nil => exact Nat.le_refl 0
  | cons b t ih =>
    simp only [List.map_cons, List.filter_cons]
    by_cases hid : (b.id == i) = true
    · rw [if_pos hid]
      rw [if_neg (by simp [matchesPair, hd] : ¬(matchesPair x y { b with status := d }
        && ({ b with status := d } : ApprovalRow).status == "PENDING") = true)]
      by_cases hph : (matchesPair x y b && b.status == "PENDING") = true
      · rw [if_pos hph]
        simp only [List.length_cons]
        exact Nat.le_succ_of_le ih
      · rw [if_neg hph]
        exact ih
    · rw [if_neg hid]
      by_cases hph : (matchesPair x y b && b.status == "PENDING") = true
      · rw [if_pos hph, if_pos hph]
        simpa using ih
      · rw [if_neg hph, if_neg hph]
        exact ih

theorem pendingFor_decide_le (db : DB) (i : Nat) (d x y : String)
    (hd : (d == "PENDING") = false) :
    pendingFor (decide_approval db i d) x y ≤ pendingFor db x y :=
  length_filter_decide_le db.approvals i d x y hd

theorem applyOp_preserves (db : DB) (op : WorkflowOp)
    (hinv : AtMostOnePending db) : AtMostOnePending (applyOp db op) := by
  cases op with
  | waitCall a n j =>
    intro x y
    exact pendingFor_wait_le_one db [] a n j x y hinv
  | requestCall a n j =>
    intro x y
    show pendingFor (request_approval db a n j).2 x y ≤ 1
    rw [request_db_eq_wait_db db a n j]
    exact pendingFor_wait_le_one db [] a n j x y hinv
  | decideOp i b =>
    intro x y
    refine Nat.le_trans (pendingFor_decide_le db i _ x y ?_) (hinv x y)
    cases b <;> decide
  | logOp a n s d =>
    intro x y
    rw [show applyOp db (.logOp a n s d) = log_event db a n s d from rfl,
      pendingFor_log_event]
    exact hinv x y

/-- Claim C3: both approval entry points look up the existing request for
the pair first and leave the store unchanged when one exists (terminal or
pending), and under any sequence of workflow operations (blocking waits,
non-blocking requests, human decisions, audit appends) the store keeps at
most one unresolved ApprovalRequest per (agent_name, action_name) pair. -/
theorem C3_dedup_invariant :
    (∀ (db : DB) (polls : List DB) (a n j : String) (r : ApprovalRow),
      find_approval db a n = some r →
      (wait_for_approval db polls a n j).2 = db ∧
      (request_approval db a n j).2 = db) ∧
    (∀ (ops : List WorkflowOp) (db0 : DB), AtMostOnePending db0 →
      AtMostOnePending (ops.foldl applyOp db0)) := by
  constructor
  · intro db polls a n j r hfind
    exact ⟨wait_db_of_find_some db polls a n j r hfind,
      request_db_of_find_some db a n j r hfind⟩
  · intro ops
    induction ops with
    | nil => intro db0 h; exact h
    | cons op t ih =>
      intro db0 h
      exact ih (applyOp db0 op) (applyOp_preserves db0 op h)

/-- Witness for C3: a concrete sequence of two blocking waits, a
non-blocking request and a human decision on the empty store still has at
most one pending request for the pair. -/
theorem C3_dedup_invariant_witness :
    pendingFor
      ([WorkflowOp.waitCall "Support" "export" "{}",
        WorkflowOp.waitCall "Support" "export" "{}",
        WorkflowOp.requestCall "Support" "export" "{}",
        WorkflowOp.decideOp 1 true].foldl applyOp DB.empty) "Support" "export" ≤ 1 :=
  C3_dedup_invariant.2
    [WorkflowOp.waitCall "Support" "export" "{}",
     WorkflowOp.waitCall "Support" "export" "{}",
     WorkflowOp.requestCall "Support" "export" "{}",
     WorkflowOp.decideOp 1 true] DB.empty (fun _ _ => Nat.zero_le 1)
    "Support" "export"

theorem bounded_poll_all_pending (observe : Nat → Option String)
    (a n : String) (i0 : Nat) (db : DB)
    (hobs : ∀ k, observe k = some "PENDING") :
    ∀ (remaining elapsed : Nat),
      bounded_poll observe a n i0 elapsed remaining db =
        (.timedOutB n i0,
         log_event (decide_approval db i0 "DENIED") a n "TIMEOUT"
           ("Approval #" ++ toString i0 ++ " timed out without a decision.")) := by
  intro remaining
  induction remaining with
  | zero => intro e; rfl
  | succ r ih =>
    intro e
    have hstep : bounded_poll observe a n i0 e (r + 1) db =
        (if observe e == some "APPROVED" then (.approvedB, db)
         else if observe e == some "DENIED" then
           (.deniedB (mkBlockedError (deniedMsg n i0) ""), db)
         else bounded_poll observe a n i0 (e + 1) r db) := rfl
    rw [hstep, hobs e]
    simp only [show ((some "PENDING" : Option String) == some "APPROVED") = false from rfl,
      show ((some "PENDING" : Option String) == some "DENIED") = false from rfl,
      Bool.false_eq_true, if_false]
    exact ih (e + 1)

theorem find_decide_status (l : List ApprovalRow) (i : Nat) (d : String)
    (h : (l.find? (fun r => r.id == i)).isSome = true) :
    ((l.map (fun r => if r.id == i then { r with status := d } else r)).find?
        (fun r => r.id == i)).map (fun r => r.status) = some d := by
  induction l with
  | nil => simp at h
  | cons b t ih =>
    by_cases hid : (b.id == i) = true
    · simp [List.find?, hid]
    · simp only [List.find?, hid] at h
      simp only [List.map_cons, if_neg hid, List.find?]
      rw [show (b.id == i) = false from by simpa using hid]
      exact ih h

/-- Claim C4 (the bounded wait is modelled from the spec, src only has
the unbounded loop): awaiting a fresh approval with a deadline of two
polling intervals while every observation stays PENDING force-resolves
the created request to DENIED, appends a TIMEOUT audit entry after the
PENDING one, and returns the ApprovalTimedOut outcome to the caller. -/
theorem C4_timeout_fail_closed (db : DB) (observe : Nat → Option String)
    (a n j : String)
    (hfind : find_approval db a n = none)
    (hobs : ∀ k, observe k = some "PENDING") :
    (await_decision_bounded db observe 2 a n j).1 = .timedOutB n db.next_id ∧
    get_approval_status (await_decision_bounded db observe 2 a n j).2 db.next_id
      = some "DENIED" ∧
    (await_decision_bounded db observe 2 a n j).2.audit_log =
      db.audit_log ++
        [⟨a, n, "PENDING", pendingMsg db.next_id⟩,
         ⟨a, n, "TIMEOUT",
          "Approval #" ++ toString db.next_id ++ " timed out without a decision."⟩] := by
  have hrun : await_decision_bounded db observe 2 a n j =
      (.timedOutB n db.next_id,
       log_event
         (decide_approval
           (log_event (create_approval db a n j).2 a n "PENDING"
             (pendingMsg db.next_id))
           db.next_id "DENIED")
         a n "TIMEOUT"
         ("Approval #" ++ toString db.next_id ++ " timed out without a decision.")) := by
    unfold await_decision_bounded
    rw [hfind]
    exact bounded_poll_all_pending observe a n db.next_id _ hobs 2 0
  refine ⟨by rw [hrun], ?_, ?_⟩
  · rw [hrun]
    show ((((create_approval db a n j).2.approvals.map
        (fun r => if r.id == db.next_id then { r with status := "DENIED" } else r)).find?
        (fun r => r.id == db.next_id)).map (fun r => r.status)) = some "DENIED"
    apply find_decide_status
    show (((db.approvals ++ ([⟨db.next_id, a, n, j, "PENDING"⟩] : List ApprovalRow)).find?
        (fun r => r.id == db.next_id)).isSome) = true
    rw [List.find?_append]
    cases hfa : db.approvals.find? (fun r => r.id == db.next_id) with
    | none => simp [List.find?]
    | some r => simp
  · rw [hrun]
    show ((db.audit_log ++ [⟨a, n, "PENDING", pendingMsg db.next_id⟩]) ++
        [⟨a, n, "TIMEOUT",
          "Approval #" ++ toString db.next_id ++ " timed out without a decision."⟩]) =
      db.audit_log ++
        [⟨a, n, "PENDING", pendingMsg db.next_id⟩,
         ⟨a, n, "TIMEOUT",
          "Approval #" ++ toString db.next_id ++ " timed out without a decision."⟩]
    rw [List.append_assoc]
    rfl

/-- Witness for C4: on the concrete store with no approval for the pair,
the bounded wait with deadline two times out, denies and audits. -/
theorem C4_timeout_fail_closed_witness :
    (await_decision_bounded dbActive (fun _ => some "PENDING") 2
        "Support" "transfer" "{}").1 = .timedOutB "transfer" 1 ∧
    get_approval_status
        (await_decision_bounded dbActive (fun _ => some "PENDING") 2
          "Support" "transfer" "{}").2 1 = some "DENIED" :=
  have h := C4_timeout_fail_closed dbActive (fun _ => some "PENDING")
    "Support" "transfer" "{}" (by decide) (fun _ => rfl)
  ⟨h.1, h.2.1⟩

end Sentinel
